import Mathlib

/-!
Verification of the StoryWeaver branching-story core: the Story/Scene/Choice
graph model (client/src/types/story.ts), the store mutations of the
useStories hook, the playback logic of StoryPreview and StoryCanvas, the
id generator, and the snapshot codec.  All definitions are shallow
embeddings of the TypeScript source; identifier-generation results and
generator responses, which the code obtains from the environment
(Date.now, Math.random, fetch), are passed in as explicit parameters.
-/

namespace StoryWeaver

/-- One player-facing decision; from `types/story.ts` (`Choice`).
`targetSceneId = none` embeds the TypeScript `null`. -/
structure Choice where
  id : String
  text : String
  targetSceneId : Option String
deriving DecidableEq, Repr

/-- One narrative unit; from `types/story.ts` (`Scene`). -/
structure Scene where
  id : String
  title : String
  body : String
  choices : List Choice
deriving DecidableEq, Repr

/-- Top-level aggregate; from `types/story.ts` (`Story`). -/
structure Story where
  id : String
  title : String
  description : String
  scenes : List Scene
  startSceneId : Option String
deriving DecidableEq, Repr

/-- JavaScript `String.prototype.trim`, modelled on the character list:
whitespace stripped from both ends. -/
def jsTrim (s : String) : String :=
  ⟨((s.data.dropWhile Char.isWhitespace).reverse.dropWhile Char.isWhitespace).reverse⟩

/-- JavaScript truthiness of a `string | null` value: `null` and the empty
string are falsy.  Used wherever the source writes `if (x)` on such a value. -/
def truthy : Option String → Bool
  | none => false
  | some s => s != ""

/-- `story.scenes.find((s) => s.id === currentSceneId)` as written in
StoryPreview and StoryCanvas; a `null` pointer matches no scene. -/
def sceneAt (story : Story) (cur : Option String) : Option Scene :=
  match cur with
  | none => none
  | some cid => story.scenes.find? fun s => s.id == cid

/-- The id produced by `generateId` in `useStories.ts`:
`` `${Date.now()}-${Math.random().toString(36).substring(2, 11)}` ``.
The millisecond clock reading and the rendered random suffix are the two
environment observations of a call. -/
def generateId (now : Nat) (randomSuffix : String) : String :=
  Nat.repr now ++ "-" ++ randomSuffix

/-- The ids allocated by a sequence of creation calls
(createStory / createScene / addChoice), one environment observation
`(Date.now(), random suffix)` per call. -/
def idsOfCreationCalls (env : List (Nat × String)) : List String :=
  env.map fun call => generateId call.1 call.2

/-- The numeric value of a decimal digit character (used to read back the
decimal rendering `Date.now()` produces inside `generateId`). -/
def digitVal (c : Char) : Nat := c.toNat - 48

/-- The value denoted by a most-significant-first list of decimal digit
characters. -/
def ofDigits : List Char → Nat
  | [] => 0
  | c :: cs => digitVal c * 10 ^ cs.length + ofDigits cs

/-- The field bag accepted by `updateStory` (`Partial<Story>`): every field
of `Story` may be present or absent. -/
structure StoryPatch where
  id : Option String := none
  title : Option String := none
  description : Option String := none
  scenes : Option (List Scene) := none
  startSceneId : Option (Option String) := none
deriving Repr

/-- The field bag accepted by `updateScene` (`Partial<Scene>`). -/
structure ScenePatch where
  id : Option String := none
  title : Option String := none
  body : Option String := none
  choices : Option (List Choice) := none
deriving Repr

/-- The field bag accepted by `updateChoice` (`Partial<Choice>`). -/
structure ChoicePatch where
  id : Option String := none
  text : Option String := none
  targetSceneId : Option (Option String) := none
deriving Repr

/-- The spread merge `{ ...story, ...updates }`: a field present in the
patch overwrites the story's field, id included. -/
def applyStoryPatch (story : Story) (p : StoryPatch) : Story :=
  { id := p.id.getD story.id
    title := p.title.getD story.title
    description := p.description.getD story.description
    scenes := p.scenes.getD story.scenes
    startSceneId := p.startSceneId.getD story.startSceneId }

/-- The spread merge `{ ...scene, ...updates }`. -/
def applyScenePatch (scene : Scene) (p : ScenePatch) : Scene :=
  { id := p.id.getD scene.id
    title := p.title.getD scene.title
    body := p.body.getD scene.body
    choices := p.choices.getD scene.choices }

/-- The spread merge `{ ...choice, ...updates }`. -/
def applyChoicePatch (choice : Choice) (p : ChoicePatch) : Choice :=
  { id := p.id.getD choice.id
    text := p.text.getD choice.text
    targetSceneId := p.targetSceneId.getD choice.targetSceneId }

/-- `createStory` of `useStories.ts`: fresh id (supplied by the caller as
the `generateId` output), empty scene list, `startSceneId = null`,
appended to the collection; returns the new aggregate and the new store. -/
def createStory (newId : String) (title : String) (description : String)
    (stories : List Story) : Story × List Story :=
  let newStory : Story :=
    { id := newId, title := title, description := description
      scenes := [], startSceneId := none }
  (newStory, stories ++ [newStory])

/-- `updateStory` of `useStories.ts`. -/
def updateStory (storyId : String) (p : StoryPatch) (stories : List Story) :
    List Story :=
  stories.map fun story =>
    if story.id == storyId then applyStoryPatch story p else story

/-- `deleteStory` of `useStories.ts`. -/
def deleteStory (storyId : String) (stories : List Story) : List Story :=
  stories.filter fun story => story.id != storyId

/-- `getStory` of `useStories.ts`. -/
def getStory (storyId : String) (stories : List Story) : Option Story :=
  stories.find? fun story => story.id == storyId

/-- `createScene` of `useStories.ts`: fresh id, empty body, empty choices,
appended to the named Story's scene list.  The call sites pass the default
title `"New Scene"` explicitly. -/
def createScene (newId : String) (storyId : String) (title : String)
    (stories : List Story) : Scene × List Story :=
  let newScene : Scene := { id := newId, title := title, body := "", choices := [] }
  (newScene, stories.map fun story =>
    if story.id == storyId then
      { story with scenes := story.scenes ++ [newScene] }
    else story)

/-- `updateScene` of `useStories.ts`. -/
def updateScene (storyId : String) (sceneId : String) (p : ScenePatch)
    (stories : List Story) : List Story :=
  stories.map fun story =>
    if story.id == storyId then
      { story with scenes := story.scenes.map fun scene =>
          if scene.id == sceneId then applyScenePatch scene p else scene }
    else story

/-- `deleteScene` of `useStories.ts`: filters the scene out and clears
`startSceneId` when it pointed at the deleted scene. -/
def deleteScene (storyId : String) (sceneId : String) (stories : List Story) :
    List Story :=
  stories.map fun story =>
    if story.id == storyId then
      { story with
        scenes := story.scenes.filter fun scene => scene.id != sceneId
        startSceneId :=
          if story.startSceneId == some sceneId then none else story.startSceneId }
    else story

/-- `addChoice` of `useStories.ts`: fresh id, `targetSceneId = null`,
appended to the named Scene's choice list. -/
def addChoice (newId : String) (storyId : String) (sceneId : String)
    (choiceText : String) (stories : List Story) : Choice × List Story :=
  let newChoice : Choice := { id := newId, text := choiceText, targetSceneId := none }
  (newChoice, stories.map fun story =>
    if story.id == storyId then
      { story with scenes := story.scenes.map fun scene =>
          if scene.id == sceneId then
            { scene with choices := scene.choices ++ [newChoice] }
          else scene }
    else story)

/-- `updateChoice` of `useStories.ts`. -/
def updateChoice (storyId : String) (sceneId : String) (choiceId : String)
    (p : ChoicePatch) (stories : List Story) : List Story :=
  stories.map fun story =>
    if story.id == storyId then
      { story with scenes := story.scenes.map fun scene =>
          if scene.id == sceneId then
            { scene with choices := scene.choices.map fun choice =>
                if choice.id == choiceId then applyChoicePatch choice p else choice }
          else scene }
    else story

/-- `deleteChoice` of `useStories.ts`. -/
def deleteChoice (storyId : String) (sceneId : String) (choiceId : String)
    (stories : List Story) : List Story :=
  stories.map fun story =>
    if story.id == storyId then
      { story with scenes := story.scenes.map fun scene =>
          if scene.id == sceneId then
            { scene with choices := scene.choices.filter fun choice =>
                choice.id != choiceId }
          else scene }
    else story

/-- The shape returned by a successful `suggestScene` call
(`SuggestSceneResult` in `useAiApi.ts`). -/
structure SuggestSceneResult where
  title : String
  body : String
deriving DecidableEq, Repr

/-- The observable outcome of the one `fetch` in `suggestScene`
(`useAiApi.ts`): a parsed success payload, a non-success HTTP status, or a
transport failure. -/
inductive FetchOutcome where
  | ok (data : SuggestSceneResult)
  | httpError (status : Nat)
  | networkError
deriving DecidableEq, Repr

/-- What `suggestScene` in `useAiApi.ts` returns to its caller: the parsed
payload on success, and `null` on a non-ok status (the thrown error is
caught) or on a transport failure. -/
def suggestSceneResult : FetchOutcome → Option SuggestSceneResult
  | FetchOutcome.ok data => some data
  | FetchOutcome.httpError _ => none
  | FetchOutcome.networkError => none

/-- StoryPreview's `useState(story.startSceneId)` initializer
(part_003): playback starts at exactly `startSceneId`. -/
def previewInit (story : Story) : Option String :=
  story.startSceneId

/-- The first scene's id, if any (`story.scenes[0].id`). -/
def firstSceneId (story : Story) : Option String :=
  story.scenes.head?.map Scene.id

/-- StoryCanvas's `useState` initializer for `currentSceneId`
(StoryCanvas.tsx lines 48-52): `startSceneId` when truthy, otherwise the
first scene when one exists, otherwise `null`. -/
def canvasInit (story : Story) : Option String :=
  if truthy story.startSceneId then story.startSceneId
  else if story.scenes.length > 0 then firstSceneId story
  else none

/-- `handleChoice` as written identically in StoryPreview (part_003) and
StoryCanvas.tsx: when the choice's `targetSceneId` is truthy, set
`currentSceneId` to it (no existence check); otherwise do nothing. -/
def handleChoice (cur : Option String) (targetSceneId : Option String) :
    Option String :=
  if truthy targetSceneId then targetSceneId else cur

/-- StoryPreview's `startScene` lookup:
`story.scenes.find((s) => s.id === story.startSceneId)`. -/
def startSceneOf (story : Story) : Option Scene :=
  match story.startSceneId with
  | some sid => story.scenes.find? fun s => s.id == sid
  | none => none

/-- StoryPreview's cannot-start guard:
`if (!story.startSceneId || !startScene)` renders the error screen. -/
def previewCannotStart (story : Story) : Bool :=
  !truthy story.startSceneId || (startSceneOf story).isNone

/-- The choice buttons StoryPreview's render exposes: none on the
cannot-start screen, none on the scene-not-found screen, otherwise the
current scene's choices. -/
def previewExposedChoices (story : Story) (cur : Option String) : List Choice :=
  if previewCannotStart story then []
  else
    match sceneAt story cur with
    | none => []
    | some scene => scene.choices

/-- StoryPreview's end-of-story banner condition:
`currentScene.choices.length === 0` on the resolved current scene. -/
def previewAtEnding (story : Story) (cur : Option String) : Bool :=
  match sceneAt story cur with
  | some scene => scene.choices.isEmpty
  | none => false

/-- `handleCustomInput` of StoryPreview (part_003 lines 363-393): guarded
on a non-blank input and a resolved current scene; on a generator failure
(`result = none`) nothing changes; on success a temporary scene
`{id: temp-now, title, body, choices: []}` is appended to the story and
becomes current.  Returns the story and `currentSceneId` after the call. -/
def handleCustomInput (story : Story) (cur : Option String)
    (customInput : String) (now : Nat) (result : Option SuggestSceneResult) :
    Story × Option String :=
  if jsTrim customInput == "" then (story, cur)
  else
    match sceneAt story cur with
    | none => (story, cur)
    | some _ =>
      match result with
      | none => (story, cur)
      | some r =>
        let newScene : Scene :=
          { id := "temp-" ++ Nat.repr now, title := r.title, body := r.body
            choices := [] }
        ({ story with scenes := story.scenes ++ [newScene] }, some newScene.id)

/-- `handleAiSuggest` of StoryCanvas.tsx (lines 190-275) as a transition on
the store.  `stories` is the store state at entry, which is also the value
of the `story` prop captured by the handler's closure; the store callbacks
(`onCreateScene`, `onUpdateScene`, `onAddChoice`, `onUpdateChoice`) act on
the live store, while the final `story.scenes.find(...)` lookup reads the
captured (pre-mutation) prop.  `newSceneId` and `contChoiceId` are the
fresh ids generated inside `createScene` and `addChoice`;
`choicesResult` carries the `suggestChoices` payload as (fresh id, text)
pairs, `none` when that call failed.  Returns the store and
`currentSceneId` after the handler. -/
def handleAiSuggest (stories : List Story) (storyId : String)
    (cur : Option String) (newSceneId : String) (contChoiceId : String)
    (result : Option SuggestSceneResult)
    (choicesResult : Option (List (String × String))) :
    List Story × Option String :=
  match stories.find? fun st => st.id == storyId with
  | none => (stories, cur)
  | some story =>
    match sceneAt story cur, cur with
    | some currentScene, some cid =>
      if jsTrim currentScene.body == "" then (stories, cur)
      else if jsTrim story.title == "" then (stories, cur)
      else if jsTrim story.description == "" then (stories, cur)
      else
        match result with
        | none => (stories, cur)
        | some r =>
          let s1 := (createScene newSceneId storyId "New Scene" stories).2
          let s2 := updateScene storyId newSceneId
            { title := some r.title, body := some r.body } s1
          let s3 :=
            match choicesResult with
            | some suggested =>
              suggested.foldl
                (fun acc p => (addChoice p.1 storyId newSceneId p.2 acc).2) s2
            | none => s2
          let s4 :=
            (addChoice contChoiceId storyId cid ("Continue to " ++ r.title) s3).2
          let s5 :=
            match (story.scenes.find? fun s => s.id == cid).bind
                (fun scene => scene.choices.getLast?) with
            | some lastChoice =>
              updateChoice storyId cid lastChoice.id
                { targetSceneId := some (some newSceneId) } s4
            | none => s4
          (s5, some newSceneId)
    | _, _ => (stories, cur)

/-- Modelled from the spec: the snapshot codec (`useLocalStorage.ts`, not
present under src/; only its caller in `useStories.ts` is).  The external
blob is a JSON value tree; `JSON.stringify`/`JSON.parse` between value
trees and text is the external JSON library, outside this core. -/
inductive Json where
  | null
  | str (s : String)
  | arr (items : List Json)
  | obj (fields : List (String × Json))

/-- Modelled from the spec: encoding of a nullable scene reference. -/
def encodeOptStr : Option String → Json
  | none => Json.null
  | some s => Json.str s

/-- Modelled from the spec: decoding of a nullable scene reference. -/
def decodeOptStr : Json → Option (Option String)
  | Json.null => some none
  | Json.str s => some (some s)
  | _ => none

/-- Modelled from the spec: serialization of a Choice with all fields
of section 3. -/
def encodeChoice (c : Choice) : Json :=
  Json.obj [("id", Json.str c.id), ("text", Json.str c.text),
    ("targetSceneId", encodeOptStr c.targetSceneId)]

/-- Modelled from the spec: deserialization of a Choice. -/
def decodeChoice : Json → Option Choice
  | Json.obj [("id", Json.str i), ("text", Json.str t), ("targetSceneId", ts)] =>
    (decodeOptStr ts).map fun target =>
      { id := i, text := t, targetSceneId := target }
  | _ => none

/-- Modelled from the spec: element-wise decoding of a serialized list;
fails if any element fails. -/
def decodeList (f : Json → Option α) : List Json → Option (List α)
  | [] => some []
  | j :: rest =>
    match f j, decodeList f rest with
    | some a, some as => some (a :: as)
    | _, _ => none

/-- Modelled from the spec: serialization of a Scene. -/
def encodeScene (s : Scene) : Json :=
  Json.obj [("id", Json.str s.id), ("title", Json.str s.title),
    ("body", Json.str s.body), ("choices", Json.arr (s.choices.map encodeChoice))]

/-- Modelled from the spec: deserialization of a Scene. -/
def decodeScene : Json → Option Scene
  | Json.obj [("id", Json.str i), ("title", Json.str t), ("body", Json.str b),
      ("choices", Json.arr cs)] =>
    (decodeList decodeChoice cs).map fun choices =>
      { id := i, title := t, body := b, choices := choices }
  | _ => none

/-- Modelled from the spec: serialization of a Story. -/
def encodeStory (st : Story) : Json :=
  Json.obj [("id", Json.str st.id), ("title", Json.str st.title),
    ("description", Json.str st.description),
    ("scenes", Json.arr (st.scenes.map encodeScene)),
    ("startSceneId", encodeOptStr st.startSceneId)]

/-- Modelled from the spec: deserialization of a Story. -/
def decodeStory : Json → Option Story
  | Json.obj [("id", Json.str i), ("title", Json.str t),
      ("description", Json.str d), ("scenes", Json.arr scs),
      ("startSceneId", ss)] =>
    match decodeList decodeScene scs, decodeOptStr ss with
    | some scenes, some start =>
      some { id := i, title := t, description := d, scenes := scenes
             startSceneId := start }
    | _, _ => none
  | _ => none

/-- Modelled from the spec: `save(stories) -> blob`. -/
def save (stories : List Story) : Json :=
  Json.arr (stories.map encodeStory)

/-- Modelled from the spec: deserialization of the whole collection. -/
def decodeStories : Json → Option (List Story)
  | Json.arr items => decodeList decodeStory items
  | _ => none

/-- Modelled from the spec: `load(blob) -> sequence<Story>`; missing or
corrupt input yields the empty collection rather than failing. -/
def load (blob : Json) : List Story :=
  (decodeStories blob).getD []

/-- A story whose single scene carries a choice pointing at a deleted
(nonexistent) scene id: the dangling-reference state of the spec. -/
def danglingStory : Story :=
  { id := "s1", title := "T", description := "D"
    scenes := [{ id := "a", title := "A", body := "start"
                 choices := [{ id := "c1", text := "go", targetSceneId := some "ghost" }] }]
    startSceneId := some "a" }

/-- A story with no start scene but a nonempty scene list. -/
def c2Story : Story :=
  { id := "s2", title := "T", description := "D"
    scenes := [{ id := "a", title := "A", body := "once", choices := [] }]
    startSceneId := none }

/-- A story whose startSceneId names no existing scene (a dangling start
reference) while scenes exist. -/
def danglingStartStory : Story :=
  { id := "s2d", title := "T", description := "D"
    scenes := [{ id := "a", title := "A", body := "once", choices := [] }]
    startSceneId := some "ghost" }

/-- A one-scene story (no prior choices on the originating scene) for the
AI scene-suggestion flow. -/
def c3StoryA : Story :=
  { id := "st", title := "My Story", description := "About caves"
    scenes := [{ id := "a", title := "Intro", body := "You wake up.", choices := [] }]
    startSceneId := some "a" }

/-- A story whose originating scene already has one linked choice. -/
def c3StoryB : Story :=
  { id := "st", title := "My Story", description := "About caves"
    scenes := [{ id := "a", title := "Intro", body := "You wake up."
                 choices := [{ id := "c0", text := "Go north", targetSceneId := some "b" }] },
               { id := "b", title := "North", body := "Cold.", choices := [] }]
    startSceneId := some "a" }

/-- A two-scene story whose start scene is about to be deleted; the other
scene keeps a (then dangling) choice to it. -/
def c5Story : Story :=
  { id := "s5", title := "T", description := "D"
    scenes := [{ id := "a", title := "A", body := "", choices := [] },
               { id := "b", title := "B", body := ""
                 choices := [{ id := "cb", text := "to a", targetSceneId := some "a" }] }]
    startSceneId := some "a" }

/-- A story for the id-immutability counterexample. -/
def c8Story : Story :=
  { id := "s8", title := "T", description := "D", scenes := [], startSceneId := none }

/-- A one-scene story (the scene has a choice) for the custom free-text
playback flow. -/
def c10Story : Story :=
  { id := "sx", title := "T", description := "D"
    scenes := [{ id := "a", title := "A", body := "You stand."
                 choices := [{ id := "c1", text := "wait", targetSceneId := some "a" }] }]
    startSceneId := some "a" }

/-- C1: the claim says selecting a Choice whose non-null `targetSceneId`
does not resolve leaves `currentSceneId` unchanged, like a null target.
False on the code: `handleChoice` assigns any truthy target without an
existence check, so the dangling id becomes current. -/
theorem C1_counterexample :
    sceneAt danglingStory (some "a") =
      some { id := "a", title := "A", body := "start"
             choices := [{ id := "c1", text := "go", targetSceneId := some "ghost" }] } ∧
    (danglingStory.scenes.find? fun s => s.id == "ghost") = none ∧
    handleChoice (some "a") (some "ghost") = some "ghost" ∧
    handleChoice (some "a") (some "ghost") ≠ some "a" := by decide

/-- C1 (amended): selecting a choice with a truthy (non-null, non-empty)
`targetSceneId` always sets `currentSceneId` to that target, resolving or
not, while a null target leaves `currentSceneId` unchanged; no branch
throws (`handleChoice` is total). -/
theorem C1_amended (cur : Option String) (t : String) (h : t ≠ "") :
    handleChoice cur (some t) = some t ∧ handleChoice cur none = cur := by
  refine ⟨?_, ?_⟩
  · simp [handleChoice, truthy, h]
  · simp [handleChoice, truthy]

/-- C1 witness: the amended statement at the dangling example. -/
theorem C1_amended_witness :
    handleChoice (some "a") (some "ghost") = some "ghost" ∧
    handleChoice (some "a") none = some "a" :=
  C1_amended (some "a") "ghost" (by decide)

/-- C2: the claim says playback initialization sets `currentSceneId` to
exactly `Story.startSceneId` and never falls back to another scene.
False on the code: StoryCanvas's initializer falls back to the first scene
when `startSceneId` is null. -/
theorem C2_counterexample :
    c2Story.startSceneId = none ∧
    canvasInit c2Story = some "a" ∧
    canvasInit c2Story ≠ c2Story.startSceneId := by decide

/-- C2 (amended): StoryPreview's initializer sets `currentSceneId` to
exactly `startSceneId`, and with a null or dangling `startSceneId`
(`startSceneOf story = none` covers both) the preview is in the terminal
cannot-start state and exposes no choices; StoryCanvas's initializer
instead falls back to the first scene when `startSceneId` is null (null
only when the story has no scenes). -/
theorem C2_amended (story : Story) (h : startSceneOf story = none) :
    previewInit story = story.startSceneId ∧
    previewCannotStart story = true ∧
    previewExposedChoices story (previewInit story) = [] ∧
    (story.startSceneId = none → canvasInit story = firstSceneId story) := by
  have hcannot : previewCannotStart story = true := by
    simp [previewCannotStart, h]
  refine ⟨rfl, hcannot, ?_, ?_⟩
  · simp [previewExposedChoices, hcannot]
  · intro h0
    simp only [canvasInit, h0, truthy]
    cases hs : story.scenes with
    | nil => simp [firstSceneId, hs]
    | cons a l => simp [firstSceneId, hs]

/-- C2 witness: the amended statement at the concrete null-start fallback
story and at the concrete dangling-start story. -/
theorem C2_amended_witness :
    (previewInit c2Story = c2Story.startSceneId ∧
     previewCannotStart c2Story = true ∧
     previewExposedChoices c2Story (previewInit c2Story) = [] ∧
     (c2Story.startSceneId = none → canvasInit c2Story = firstSceneId c2Story)) ∧
    (previewInit danglingStartStory = danglingStartStory.startSceneId ∧
     previewCannotStart danglingStartStory = true ∧
     previewExposedChoices danglingStartStory (previewInit danglingStartStory) = [] ∧
     (danglingStartStory.startSceneId = none →
       canvasInit danglingStartStory = firstSceneId danglingStartStory)) :=
  ⟨C2_amended c2Story (by decide), C2_amended danglingStartStory (by decide)⟩

/-- C4: a failed generator call (non-success HTTP status or transport
failure) surfaces as a `null` result, and `handleCustomInput` then leaves
the Story graph and `currentSceneId` exactly as they were: no partial
mutation is committed. -/
theorem C4_generator_failure (story : Story) (cur : Option String)
    (input : String) (now : Nat) (status : Nat) :
    handleCustomInput story cur input now
        (suggestSceneResult (FetchOutcome.httpError status)) = (story, cur) ∧
    handleCustomInput story cur input now
        (suggestSceneResult FetchOutcome.networkError) = (story, cur) := by
  have key : handleCustomInput story cur input now none = (story, cur) := by
    unfold handleCustomInput
    split
    · rfl
    · split <;> rfl
  exact ⟨key, key⟩

/-- C3: the claim (and the code's evident intent) is that the AI
scene-suggestion flow creates exactly one new Choice on the originating
Scene whose `targetSceneId` points at the new Scene.  The handler adds the
"Continue to ..." choice and then resolves "the last choice" against the
stale pre-mutation `story` prop captured by its closure, so the new choice
is left unlinked (`targetSceneId = null`, an orphan island when the scene
had no prior choices), and when prior choices exist the previously-last
one is re-targeted instead. -/
theorem C3_code_bug_eval :
    handleAiSuggest [c3StoryA] "st" (some "a") "ns" "cc"
        (some { title := "Cave", body := "You enter a cave." }) (some []) =
      ([{ id := "st", title := "My Story", description := "About caves"
          scenes := [{ id := "a", title := "Intro", body := "You wake up."
                       choices := [{ id := "cc", text := "Continue to Cave"
                                     targetSceneId := none }] },
                     { id := "ns", title := "Cave", body := "You enter a cave."
                       choices := [] }]
          startSceneId := some "a" }], some "ns") ∧
    handleAiSuggest [c3StoryB] "st" (some "a") "ns" "cc"
        (some { title := "Cave", body := "You enter a cave." }) (some []) =
      ([{ id := "st", title := "My Story", description := "About caves"
          scenes := [{ id := "a", title := "Intro", body := "You wake up."
                       choices := [{ id := "c0", text := "Go north"
                                     targetSceneId := some "ns" },
                                   { id := "cc", text := "Continue to Cave"
                                     targetSceneId := none }] },
                     { id := "b", title := "North", body := "Cold.", choices := [] },
                     { id := "ns", title := "Cave", body := "You enter a cave."
                       choices := [] }]
          startSceneId := some "a" }], some "ns") := by decide

/-- Filtering out the scene with id `sid` from a list whose scene ids are
distinct and contain `sid` removes exactly one element. -/
theorem length_filter_ne_id (l : List Scene) (sid : String)
    (hnodup : (l.map Scene.id).Nodup) (hmem : sid ∈ l.map Scene.id) :
    (l.filter fun x => x.id != sid).length + 1 = l.length := by
  induction l with
  | nil => simp at hmem
  | cons sc l ih =>
    rw [List.map_cons, List.nodup_cons] at hnodup
    by_cases h : sc.id = sid
    · have hkeep : l.filter (fun x => x.id != sid) = l := by
        apply List.filter_eq_self.mpr
        intro x hx
        have hne : x.id ≠ sid := by
          intro hxe
          exact hnodup.1 (by rw [h, ← hxe]; exact List.mem_map_of_mem Scene.id hx)
        simpa using hne
      have hdrop : (sc.id != sid) = false := by simpa using h
      simp [List.filter_cons, hdrop, hkeep]
    · have hmem2 : sid ∈ l.map Scene.id := by
        rcases List.mem_cons.mp hmem with h1 | h1
        · exact absurd h1.symm h
        · exact h1
      have hrec := ih hnodup.2 hmem2
      have hp : (sc.id != sid) = true := by simpa using h
      simp only [List.filter_cons, hp, if_true, List.length_cons]
      omega

/-- C5: `deleteScene` removes exactly the named scene from the targeted
story, resets `startSceneId` to null exactly when it referenced that
scene, and leaves the story's other fields, every other scene (choices
included, dangling references untouched), and every other story unchanged. -/
theorem C5_deleteScene (stories : List Story) (st : Story) (sid : String)
    (hmem : st ∈ stories)
    (hnodup : (st.scenes.map Scene.id).Nodup)
    (hpresent : sid ∈ st.scenes.map Scene.id) :
    ∃ st2 ∈ deleteScene st.id sid stories,
      st2.id = st.id ∧ st2.title = st.title ∧ st2.description = st.description ∧
      st2.scenes = st.scenes.filter (fun sc => sc.id != sid) ∧
      st2.scenes.length + 1 = st.scenes.length ∧
      (∀ sc ∈ st.scenes, sc.id ≠ sid → sc ∈ st2.scenes) ∧
      (st.startSceneId = some sid → st2.startSceneId = none) ∧
      (st.startSceneId ≠ some sid → st2.startSceneId = st.startSceneId) ∧
      (∀ other ∈ stories, other.id ≠ st.id → other ∈ deleteScene st.id sid stories) := by
  refine ⟨{ st with
      scenes := st.scenes.filter fun scene => scene.id != sid
      startSceneId :=
        if st.startSceneId == some sid then none else st.startSceneId },
    ?_, rfl, rfl, rfl, rfl, ?_, ?_, ?_, ?_, ?_⟩
  · simp only [deleteScene]
    refine List.mem_map.mpr ⟨st, hmem, ?_⟩
    simp
  · exact length_filter_ne_id st.scenes sid hnodup hpresent
  · intro sc hsc hne
    exact List.mem_filter.mpr ⟨hsc, by simpa using hne⟩
  · intro h
    simp [h]
  · intro h
    have hfalse : (st.startSceneId == some sid) = false := by simpa using h
    simp [hfalse]
  · intro other hother hne
    have hfalse : (other.id == st.id) = false := by simpa using hne
    simp only [deleteScene]
    refine List.mem_map.mpr ⟨other, hother, ?_⟩
    simp [hfalse]

/-- C5 witness: deleting the start scene of the concrete two-scene story. -/
theorem C5_deleteScene_witness :
    ∃ st2 ∈ deleteScene c5Story.id "a" [c5Story],
      st2.id = c5Story.id ∧ st2.title = c5Story.title ∧
      st2.description = c5Story.description ∧
      st2.scenes = c5Story.scenes.filter (fun sc => sc.id != "a") ∧
      st2.scenes.length + 1 = c5Story.scenes.length ∧
      (∀ sc ∈ c5Story.scenes, sc.id ≠ "a" → sc ∈ st2.scenes) ∧
      (c5Story.startSceneId = some "a" → st2.startSceneId = none) ∧
      (c5Story.startSceneId ≠ some "a" → st2.startSceneId = c5Story.startSceneId) ∧
      (∀ other ∈ [c5Story], other.id ≠ c5Story.id →
        other ∈ deleteScene c5Story.id "a" [c5Story]) :=
  C5_deleteScene [c5Story] c5Story "a" (by decide) (by decide) (by decide)

/-- Decoding inverts encoding for nullable references. -/
theorem decodeOptStr_encodeOptStr (o : Option String) :
    decodeOptStr (encodeOptStr o) = some o := by
  cases o <;> rfl

/-- Decoding inverts encoding for Choices. -/
theorem decodeChoice_encodeChoice (c : Choice) :
    decodeChoice (encodeChoice c) = some c := by
  cases c with
  | mk i t target => cases target <;> rfl

/-- Decoding a mapped encoding element-wise recovers the original list. -/
theorem decodeList_map {α : Type} (f : Json → Option α) (g : α → Json)
    (l : List α) (h : ∀ x ∈ l, f (g x) = some x) :
    decodeList f (l.map g) = some l := by
  induction l with
  | nil => rfl
  | cons a l ih =>
    have ha := h a (List.mem_cons_self a l)
    have hl := ih fun x hx => h x (List.mem_cons_of_mem a hx)
    simp [decodeList, ha, hl]

/-- Decoding inverts encoding for Scenes. -/
theorem decodeScene_encodeScene (s : Scene) :
    decodeScene (encodeScene s) = some s := by
  cases s with
  | mk i t b cs =>
    simp [encodeScene, decodeScene,
      decodeList_map decodeChoice encodeChoice cs fun x _ => decodeChoice_encodeChoice x]

/-- Decoding inverts encoding for Stories. -/
theorem decodeStory_encodeStory (st : Story) :
    decodeStory (encodeStory st) = some st := by
  cases st with
  | mk i t d scs start =>
    simp [encodeStory, decodeStory, decodeOptStr_encodeOptStr,
      decodeList_map decodeScene encodeScene scs fun x _ => decodeScene_encodeScene x]

/-- C6: the snapshot round-trip is lossless: `load (save stories)` returns
the collection field-for-field, for any collection — including the empty
one, stories with zero scenes, and cyclic choice links (links are plain
ids, so cycles need no special handling). -/
theorem C6_roundtrip (stories : List Story) : load (save stories) = stories := by
  simp [load, save, decodeStories,
    decodeList_map decodeStory encodeStory stories fun x _ => decodeStory_encodeStory x]

/-- C8: the claim says ids survive every partial-fields patch.  False on
the code: the spread merge lets a patch that carries an `id` field
overwrite the targeted entity's id. -/
theorem C8_counterexample :
    updateStory "s8" { id := some "evil" } [c8Story] =
      [{ id := "evil", title := "T", description := "D", scenes := []
         startSceneId := none }] ∧
    "evil" ≠ "s8" := by decide

/-- Mapping an update through a list and reading a view `g` that the
update preserves pointwise gives the original view. -/
theorem map_map_congr {α β : Type} (f : α → α) (g : α → β) (l : List α)
    (h : ∀ a ∈ l, g (f a) = g a) : (l.map f).map g = l.map g := by
  rw [List.map_map]
  exact List.map_congr_left h

/-- C8 (amended): for every patch that does not itself carry an `id`
field, `updateStory`, `updateScene`, and `updateChoice` preserve the ids
of every Story, Scene, and Choice respectively; a patch carrying `id`
overwrites it. -/
theorem C8_amended (stories : List Story) (storyId sceneId choiceId : String)
    (sp : StoryPatch) (scp : ScenePatch) (cp : ChoicePatch)
    (h1 : sp.id = none) (h2 : scp.id = none) (h3 : cp.id = none) :
    (updateStory storyId sp stories).map Story.id = stories.map Story.id ∧
    (updateScene storyId sceneId scp stories).map
        (fun st => st.scenes.map Scene.id) =
      stories.map (fun st => st.scenes.map Scene.id) ∧
    (updateChoice storyId sceneId choiceId cp stories).map
        (fun st => st.scenes.map fun sc => sc.choices.map Choice.id) =
      stories.map (fun st => st.scenes.map fun sc => sc.choices.map Choice.id) := by
  refine ⟨?_, ?_, ?_⟩
  · simp only [updateStory]
    apply map_map_congr
    intro st _
    split
    · simp [applyStoryPatch, h1]
    · rfl
  · simp only [updateScene]
    apply map_map_congr
    intro st _
    split
    · show ((st.scenes.map fun scene =>
          if scene.id == sceneId then applyScenePatch scene scp else scene).map
            Scene.id) = st.scenes.map Scene.id
      apply map_map_congr
      intro sc _
      split
      · simp [applyScenePatch, h2]
      · rfl
    · rfl
  · simp only [updateChoice]
    apply map_map_congr
    intro st _
    split
    · show ((st.scenes.map fun scene =>
          if scene.id == sceneId then
            { scene with choices := scene.choices.map fun choice =>
                if choice.id == choiceId then applyChoicePatch choice cp
                else choice }
          else scene).map fun sc => sc.choices.map Choice.id) =
        st.scenes.map fun sc => sc.choices.map Choice.id
      apply map_map_congr
      intro sc _
      split
      · show ((sc.choices.map fun choice =>
            if choice.id == choiceId then applyChoicePatch choice cp
            else choice).map Choice.id) = sc.choices.map Choice.id
        apply map_map_congr
        intro c _
        split
        · simp [applyChoicePatch, h3]
        · rfl
      · rfl
    · rfl

/-- C8 witness: the amended statement at concrete id-free patches. -/
theorem C8_amended_witness :
    (updateStory "s8" { title := some "New" } [c8Story]).map Story.id =
      [c8Story].map Story.id ∧
    (updateScene "s8" "a" { body := some "B" } [c8Story]).map
        (fun st => st.scenes.map Scene.id) =
      [c8Story].map (fun st => st.scenes.map Scene.id) ∧
    (updateChoice "s8" "a" "c" { text := some "T" } [c8Story]).map
        (fun st => st.scenes.map fun sc => sc.choices.map Choice.id) =
      [c8Story].map (fun st => st.scenes.map fun sc => sc.choices.map Choice.id) :=
  C8_amended [c8Story] "s8" "a" "c" { title := some "New" } { body := some "B" }
    { text := some "T" } rfl rfl rfl

/-- Mapping an update and then an inverse update over a list is the
identity when the two cancel pointwise. -/
theorem map_map_id {α : Type} (f g : α → α) (l : List α)
    (h : ∀ a ∈ l, g (f a) = a) : (l.map f).map g = l := by
  rw [List.map_map]
  exact Eq.trans (List.map_congr_left h) (List.map_id l)

/-- C9: `addChoice` followed by `deleteChoice` with the id `addChoice`
returned restores the whole store — in particular the scene's choice
sequence — to exactly its prior state, whenever the generated id is fresh
for the existing choices. -/
theorem C9_addChoice_deleteChoice (stories : List Story)
    (storyId sceneId newId choiceText : String)
    (hfresh : ∀ st ∈ stories, ∀ sc ∈ st.scenes, ∀ c ∈ sc.choices, c.id ≠ newId) :
    deleteChoice storyId sceneId newId
      (addChoice newId storyId sceneId choiceText stories).2 = stories ∧
    (addChoice newId storyId sceneId choiceText stories).1.id = newId := by
  refine ⟨?_, rfl⟩
  simp only [addChoice, deleteChoice]
  apply map_map_id
  intro st hst
  by_cases hid : st.id = storyId
  · subst hid
    simp only [beq_self_eq_true, if_true]
    have hscenes : (st.scenes.map fun scene =>
        if scene.id == sceneId then
          { scene with choices := scene.choices ++
              [{ id := newId, text := choiceText, targetSceneId := none }] }
        else scene).map (fun scene =>
        if scene.id == sceneId then
          { scene with choices := scene.choices.filter fun choice =>
              choice.id != newId }
        else scene) = st.scenes := by
      apply map_map_id
      intro sc hsc
      by_cases hs : sc.id = sceneId
      · subst hs
        simp only [beq_self_eq_true, if_true]
        have hkeep : sc.choices.filter (fun choice => choice.id != newId) =
            sc.choices :=
          List.filter_eq_self.mpr fun c hc => by
            simpa using hfresh st hst sc hsc c hc
        simp [List.filter_append, hkeep]
      · simp [hs]
    rw [hscenes]
  · simp [hid]

/-- C9 witness: the inverse law at a concrete store. -/
theorem C9_witness :
    deleteChoice "sx" "a" "fresh"
      (addChoice "fresh" "sx" "a" "New choice" [c10Story]).2 = [c10Story] ∧
    (addChoice "fresh" "sx" "a" "New choice" [c10Story]).1.id = "fresh" :=
  C9_addChoice_deleteChoice [c10Story] "sx" "a" "fresh" "New choice" (by decide)

/-- C10: every Scene created by the custom free-text action is created
with an empty choice sequence, and immediately after the transition to it
the resolved current scene is exactly that new scene, so playback is at an
ending and the end-of-story banner condition holds. -/
theorem C10_custom_scene_dead_end (story : Story) (cur : Option String)
    (input : String) (now : Nat) (r : SuggestSceneResult)
    (hinput : jsTrim input ≠ "")
    (hcur : (sceneAt story cur).isSome = true)
    (hfresh : ∀ sc ∈ story.scenes, sc.id ≠ "temp-" ++ Nat.repr now) :
    (handleCustomInput story cur input now (some r)).2 =
      some ("temp-" ++ Nat.repr now) ∧
    sceneAt (handleCustomInput story cur input now (some r)).1
        ((handleCustomInput story cur input now (some r)).2) =
      some { id := "temp-" ++ Nat.repr now, title := r.title, body := r.body
             choices := [] } ∧
    previewAtEnding (handleCustomInput story cur input now (some r)).1
        ((handleCustomInput story cur input now (some r)).2) = true := by
  have hguard : (jsTrim input == "") = false := by simpa using hinput
  obtain ⟨sc, hsc⟩ := Option.isSome_iff_exists.mp hcur
  have heval : handleCustomInput story cur input now (some r) =
      ({ story with scenes := story.scenes ++
          [{ id := "temp-" ++ Nat.repr now, title := r.title, body := r.body
             choices := [] }] }, some ("temp-" ++ Nat.repr now)) := by
    simp only [handleCustomInput, hguard, hsc]
    rfl
  rw [heval]
  have hfind : sceneAt
      { story with scenes := story.scenes ++
          [{ id := "temp-" ++ Nat.repr now, title := r.title, body := r.body
             choices := [] }] }
      (some ("temp-" ++ Nat.repr now)) =
      some { id := "temp-" ++ Nat.repr now, title := r.title, body := r.body
             choices := [] } := by
    simp only [sceneAt]
    rw [List.find?_append]
    have hnone : story.scenes.find?
        (fun s => s.id == "temp-" ++ Nat.repr now) = none :=
      List.find?_eq_none.mpr fun x hx => by simpa using hfresh x hx
    rw [hnone]
    simp
  refine ⟨rfl, hfind, ?_⟩
  simp [previewAtEnding, hfind]

/-- C10 witness: the custom-action flow at a concrete story. -/
theorem C10_witness :
    (handleCustomInput c10Story (some "a") "open" 7
        (some { title := "Door", body := "Creak." })).2 =
      some ("temp-" ++ Nat.repr 7) ∧
    sceneAt (handleCustomInput c10Story (some "a") "open" 7
        (some { title := "Door", body := "Creak." })).1
        ((handleCustomInput c10Story (some "a") "open" 7
          (some { title := "Door", body := "Creak." })).2) =
      some { id := "temp-" ++ Nat.repr 7, title := "Door", body := "Creak."
             choices := [] } ∧
    previewAtEnding (handleCustomInput c10Story (some "a") "open" 7
        (some { title := "Door", body := "Creak." })).1
        ((handleCustomInput c10Story (some "a") "open" 7
          (some { title := "Door", body := "Creak." })).2) = true :=
  C10_custom_scene_dead_end c10Story (some "a") "open" 7
    { title := "Door", body := "Creak." } (by decide) (by decide) (by decide)

/-- Reading back a digit character below ten gives the digit. -/
theorem digitVal_digitChar : ∀ m, m < 10 → digitVal (Nat.digitChar m) = m := by
  decide

/-- Digit characters below ten are not the dash separator. -/
theorem digitChar_ne_dash : ∀ m, m < 10 → Nat.digitChar m ≠ '-' := by
  decide

/-- `Nat.toDigitsCore` prepends the decimal rendering of `n` (given enough
fuel) in front of `ds`, as measured by `ofDigits`. -/
theorem ofDigits_toDigitsCore (fuel : Nat) : ∀ (n : Nat) (ds : List Char),
    n < 10 ^ fuel →
    ofDigits (Nat.toDigitsCore 10 fuel n ds) = n * 10 ^ ds.length + ofDigits ds := by
  induction fuel with
  | zero =>
    intro n ds h
    rw [pow_zero, Nat.lt_one_iff] at h
    subst h
    simp [Nat.toDigitsCore]
  | succ fuel ih =>
    intro n ds h
    have hmod : n % 10 < 10 := Nat.mod_lt n (by norm_num)
    by_cases hdiv : n / 10 = 0
    · have hstep : Nat.toDigitsCore 10 (fuel + 1) n ds =
          Nat.digitChar (n % 10) :: ds := by
        simp [Nat.toDigitsCore, hdiv]
      have hn : n % 10 = n := by
        conv_rhs => rw [← Nat.div_add_mod n 10]
        rw [hdiv]
        ring
      rw [hstep, ofDigits, digitVal_digitChar (n % 10) hmod, hn]
    · have hstep : Nat.toDigitsCore 10 (fuel + 1) n ds =
          Nat.toDigitsCore 10 fuel (n / 10) (Nat.digitChar (n % 10) :: ds) := by
        simp [Nat.toDigitsCore, hdiv]
      have hlt : n / 10 < 10 ^ fuel := by
        rw [Nat.div_lt_iff_lt_mul (by norm_num : (0 : Nat) < 10)]
        calc n < 10 ^ (fuel + 1) := h
        _ = 10 ^ fuel * 10 := by rw [pow_succ]
      rw [hstep, ih (n / 10) (Nat.digitChar (n % 10) :: ds) hlt, ofDigits,
        digitVal_digitChar (n % 10) hmod, List.length_cons, pow_succ]
      have hdm : 10 * (n / 10) + n % 10 = n := Nat.div_add_mod n 10
      conv_rhs => rw [← hdm]
      ring

/-- Every character `Nat.toDigitsCore` emits on base ten is a digit
character, hence never the dash separator. -/
theorem toDigitsCore_ne_dash (fuel : Nat) : ∀ (n : Nat) (ds : List Char),
    (∀ c ∈ ds, c ≠ '-') → ∀ c ∈ Nat.toDigitsCore 10 fuel n ds, c ≠ '-' := by
  induction fuel with
  | zero =>
    intro n ds h
    simpa [Nat.toDigitsCore] using h
  | succ fuel ih =>
    intro n ds h
    have hmod : n % 10 < 10 := Nat.mod_lt n (by norm_num)
    have hcons : ∀ c ∈ Nat.digitChar (n % 10) :: ds, c ≠ '-' := by
      intro c hc
      rcases List.mem_cons.mp hc with h1 | h1
      · subst h1
        exact digitChar_ne_dash (n % 10) hmod
      · exact h c h1
    by_cases hdiv : n / 10 = 0
    · intro c hc
      have hstep : Nat.toDigitsCore 10 (fuel + 1) n ds =
          Nat.digitChar (n % 10) :: ds := by
        simp [Nat.toDigitsCore, hdiv]
      rw [hstep] at hc
      exact hcons c hc
    · intro c hc
      have hstep : Nat.toDigitsCore 10 (fuel + 1) n ds =
          Nat.toDigitsCore 10 fuel (n / 10) (Nat.digitChar (n % 10) :: ds) := by
        simp [Nat.toDigitsCore, hdiv]
      rw [hstep] at hc
      exact ih (n / 10) _ hcons c hc

/-- Reading the decimal rendering of `n` back gives `n`. -/
theorem ofDigits_toDigits (n : Nat) : ofDigits (Nat.toDigits 10 n) = n := by
  have h : n < 10 ^ (n + 1) :=
    lt_of_lt_of_le (Nat.lt_pow_self (by norm_num) n)
      (Nat.pow_le_pow_right (by norm_num) (Nat.le_succ n))
  have hcore := ofDigits_toDigitsCore (n + 1) n [] h
  simpa [Nat.toDigits, ofDigits] using hcore

/-- The decimal rendering of naturals is injective. -/
theorem nat_repr_inj {m n : Nat} (h : Nat.repr m = Nat.repr n) : m = n := by
  have hdata : Nat.toDigits 10 m = Nat.toDigits 10 n := congrArg String.data h
  calc m = ofDigits (Nat.toDigits 10 m) := (ofDigits_toDigits m).symm
  _ = ofDigits (Nat.toDigits 10 n) := by rw [hdata]
  _ = n := ofDigits_toDigits n

/-- The decimal rendering of a natural never contains the dash. -/
theorem repr_ne_dash (n : Nat) : ∀ c ∈ (Nat.repr n).data, c ≠ '-' := by
  intro c hc
  have hmem : c ∈ Nat.toDigits 10 n := hc
  exact toDigitsCore_ne_dash (n + 1) n [] (by simp) c hmem

/-- Splitting on a separator absent from both left parts is injective. -/
theorem append_sep_inj (sep : Char) :
    ∀ (l1 l2 r1 r2 : List Char), sep ∉ l1 → sep ∉ l2 →
    l1 ++ sep :: r1 = l2 ++ sep :: r2 → l1 = l2 ∧ r1 = r2 := by
  intro l1
  induction l1 with
  | nil =>
    intro l2 r1 r2 h1 h2 heq
    cases l2 with
    | nil => simpa using heq
    | cons b l2 =>
      simp only [List.nil_append, List.cons_append, List.cons.injEq] at heq
      exact absurd (heq.1 ▸ List.mem_cons_self b l2) h2
  | cons a l1 ih =>
    intro l2 r1 r2 h1 h2 heq
    cases l2 with
    | nil =>
      simp only [List.cons_append, List.nil_append, List.cons.injEq] at heq
      exact absurd (heq.1 ▸ List.mem_cons_self a l1) h1
    | cons b l2 =>
      simp only [List.cons_append, List.cons.injEq] at heq
      obtain ⟨hab, hrest⟩ := heq
      have h1b : sep ∉ l1 := fun hx => h1 (List.mem_cons_of_mem a hx)
      have h2b : sep ∉ l2 := fun hx => h2 (List.mem_cons_of_mem b hx)
      obtain ⟨he1, he2⟩ := ih l2 r1 r2 h1b h2b hrest
      exact ⟨by rw [hab, he1], he2⟩

/-- C7: the claim says any two distinct creation calls allocate distinct
ids.  False on the code: `generateId` concatenates the millisecond clock
and a random suffix, so two calls in the same millisecond whose random
draws render identically allocate the same id — uniqueness is
probabilistic, not guaranteed. -/
theorem C7_counterexample :
    idsOfCreationCalls [(100, "abc"), (100, "abc")] = ["100-abc", "100-abc"] ∧
    (idsOfCreationCalls [(100, "abc"), (100, "abc")])[0]? =
      (idsOfCreationCalls [(100, "abc"), (100, "abc")])[1]? ∧
    (0 : Nat) ≠ 1 := by decide

/-- C7 (amended): ids from two creation calls are distinct whenever the
calls observe distinct (millisecond clock, random suffix) pairs — the
decimal clock rendering contains no dash, so the first dash delimits it —
while two calls with identical observations collide. -/
theorem C7_amended (t1 t2 : Nat) (r1 r2 : String)
    (hne : (t1, r1) ≠ (t2, r2)) :
    generateId t1 r1 ≠ generateId t2 r2 := by
  intro heq
  have hdata : (Nat.repr t1).data ++ '-' :: r1.data =
      (Nat.repr t2).data ++ '-' :: r2.data := by
    have hd := congrArg String.data heq
    simpa [generateId, String.data_append, List.append_assoc] using hd
  have hsplit := append_sep_inj '-' (Nat.repr t1).data (Nat.repr t2).data
    r1.data r2.data
    (fun hx => repr_ne_dash t1 '-' hx rfl)
    (fun hx => repr_ne_dash t2 '-' hx rfl) hdata
  have ht : t1 = t2 := nat_repr_inj (by
    have : (Nat.repr t1).data = (Nat.repr t2).data := hsplit.1
    exact congrArg (fun l => List.asString l) this)
  have hr : r1 = r2 := congrArg (fun l => List.asString l) hsplit.2
  exact hne (by rw [ht, hr])

/-- C7 witness: the amended statement at distinct clock readings. -/
theorem C7_amended_witness : generateId 100 "abc" ≠ generateId 101 "abc" :=
  C7_amended 100 101 "abc" "abc" (by decide)

end StoryWeaver
